import Mathlib

/-!
Verification development for the candidate-job recommender pipeline
(feature extraction, hard filtering, interpretable scoring, ranking and
ranking metrics).

The Python sources are embedded shallowly:
* floats are idealised as exact rationals (`ℚ`), except the NDCG metric
  whose logarithmic discounts live in `ℝ`;
* `datetime` values are modelled at day granularity as integers, and
  `datetime.now()` is an explicit parameter (field `now` of `Externals`);
* the external sentence-embedding model and the geodesic library call are
  modelled as an oracle (`Externals`) that returns cosine similarities in
  `[-1, 1]` and non-negative distances, which is exactly the contract the
  pipeline relies on;
* Python `dict`/`set` values are modelled as association lists / `Finset`s;
* the dynamically shaped language-requirement entries (`List[Dict[str, Any]]`)
  are modelled by `JobLangEntry`: a shape that passes the `isinstance(_, dict)`
  check (carrying the extracted name and the `Level_of_cretical` number) or a
  non-dict entry, which the extractor skips.
-/

namespace Recsys

/-! ## TextNormalizer (feature_extraction.TextNormalizer) -/

/-- Python's `\w` character class, restricted to ASCII inputs (every concrete
input used below is ASCII): letters, digits and underscore. -/
def isWordChar (c : Char) : Bool := c.isAlphanum || c = '_'

/-- `str.lower`, over the character list (kernel-reducible replacement for
`String.toLower`). -/
def lowerStr (s : String) : String := String.mk (s.toList.map Char.toLower)

/-- `str.upper`, over the character list. -/
def upperStr (s : String) : String := String.mk (s.toList.map Char.toUpper)

/-- Accumulator pass of `wordsOf`: `cur` holds the reversed current word. -/
def wordsAux : List Char → List Char → List (List Char)
  | [], cur => if cur.isEmpty then [] else [cur.reverse]
  | c :: t, cur =>
    if c.isWhitespace then
      if cur.isEmpty then wordsAux t [] else cur.reverse :: wordsAux t []
    else wordsAux t (c :: cur)

/-- The maximal whitespace-separated words of a character list, in order. -/
def wordsOf (l : List Char) : List (List Char) := wordsAux l []

/-- Join character-list words with single spaces. -/
def joinWords : List (List Char) → List Char
  | [] => []
  | [w] => w
  | w :: ws => w ++ ' ' :: joinWords ws

/-- `TextNormalizer.normalize_text`: lowercase, drop characters that are
neither word characters nor whitespace, collapse whitespace runs and strip.
The collapse-and-strip of `re.sub(r'\s+', ' ', text).strip()` is realised by
taking the whitespace-separated words and rejoining them with single
spaces. -/
def normalize_text (s : String) : String :=
  if s = "" then ""
  else
    let lowered := lowerStr s
    let filtered := lowered.toList.filter fun c => isWordChar c || c.isWhitespace
    String.mk (joinWords (wordsOf filtered))

/-- `dict.get(key, default=none)` over an association list (kernel-reducible
replacement for `List.lookup`). -/
def lookupStr {β : Type} (key : String) : List (String × β) → Option β
  | [] => none
  | (k, v) :: rest => if k = key then some v else lookupStr key rest

/-- `needle in hay` for Python strings (substring containment), over the
character lists. -/
def listContainsSub (n : List Char) : List Char → Bool
  | [] => n.isEmpty
  | c :: t => n.isPrefixOf (c :: t) || listContainsSub n t

/-- Python's `needle in hay` substring test. -/
def strContains (hay needle : String) : Bool :=
  listContainsSub needle.toList hay.toList

/-! ## TaxonomyMapper (feature_extraction.TaxonomyMapper) -/

/-- `TaxonomyMapper.title_taxonomy`. -/
def title_taxonomy : List (String × String) :=
  [("software engineer", "SE001"), ("data scientist", "DS001"),
   ("data analyst", "DA001"), ("machine learning engineer", "MLE001"),
   ("product manager", "PM001"), ("project manager", "PJM001")]

/-- `TaxonomyMapper.skill_taxonomy`. -/
def skill_taxonomy : List (String × String) :=
  [("python", "SK001"), ("java", "SK002"), ("javascript", "SK003"),
   ("sql", "SK004"), ("machine learning", "SK005"), ("deep learning", "SK006")]

/-- `TaxonomyMapper.map_title`: canonical id, falling back to the normalized
text itself. -/
def map_title (t : String) : String :=
  let n := normalize_text t
  (lookupStr n title_taxonomy).getD n

/-- `TaxonomyMapper.map_skill`. -/
def map_skill (s : String) : String :=
  let n := normalize_text s
  (lookupStr n skill_taxonomy).getD n

/-! ## LanguageProcessor (feature_extraction.LanguageProcessor) -/

/-- `LanguageProcessor.LEVEL_ORDINAL`, in source order. -/
def LEVEL_ORDINAL : List (String × Nat) :=
  [("A1", 1), ("A2", 2), ("B1", 3), ("B2", 4), ("C1", 5), ("C2", 6), ("Native", 7)]

/-- `LanguageProcessor.level_to_ordinal`:
`LEVEL_ORDINAL.get(level.upper(), 0)`.  Note that the lookup key is
uppercased, so the table entry `'Native'` (which is not all-uppercase) can
never be hit. -/
def level_to_ordinal (level : String) : Nat :=
  (lookupStr (upperStr level) LEVEL_ORDINAL).getD 0

/-! ## Data model (models.py) -/

/-- `models.Education`. -/
structure Education where
  level_of_education : String
  department : String
  speciality : String
  university : String
  country : String
  start_date : Int
  end_date : Option Int
deriving DecidableEq

/-- `models.WorkExperience`. -/
structure WorkExperience where
  company_name : String
  position : String
  start_date : Int
  end_date : Option Int
  is_present : Bool
  description : String
  country : String
  type_of_work : String
deriving DecidableEq

/-- `models.LanguageProficiency`. -/
structure LanguageProficiency where
  language : String
  level : String
deriving DecidableEq

/-- `models.Skill`; `importance` is optional and may be any float. -/
structure Skill where
  skill_id : String
  skill_name : String
  importance : Option ℚ
deriving DecidableEq

/-- `models.CriticalRequirement` (source field `Degree`). -/
structure CriticalRequirement where
  id : String
  requirements : String
  degree : ℚ
deriving DecidableEq

/-- `models.Candidate`. -/
structure Candidate where
  candidate_id : String
  first_name : String
  second_name : String
  phone_number : String
  date_of_birth : Option Int
  gender : Option String
  country : String
  city : String
  ready_to_relocate : Bool
  education : List Education
  work_experience : List WorkExperience
  languages : List LanguageProficiency
  skills : List Skill
deriving DecidableEq

/-- The value under the `'languages'` key of a dict-shaped language
requirement entry: either itself a dict (from which `.get('language', '')`
reads the name) or any other value, which the source stringifies. -/
inductive LanguagesVal where
  | dictVal (language : String)
  | strVal (s : String)
deriving DecidableEq

/-- A dict-shaped entry of `JobPosition.languages`:
`{"languages": ..., "Level_of_cretical": number}` (`.get('Level_of_cretical', 0)`
defaults make the weight total). -/
structure JobLangDict where
  languages : LanguagesVal
  level_of_cretical : ℚ
deriving DecidableEq

/-- An entry of `JobPosition.languages : List[Dict[str, Any]]`: the extractor
keeps only entries passing `isinstance(lang_req, dict)`. -/
inductive JobLangEntry where
  | dictEntry (d : JobLangDict)
  | nonDictEntry
deriving DecidableEq

/-- The language-name extraction expression of
`FeatureExtractor.extract_language_features`:
`lang_req.get('languages', {}).get('language', '')` when the value is a dict,
else `str(lang_req.get('languages', ''))`. -/
def langNameOf : LanguagesVal → String
  | .dictVal s => s
  | .strVal s => s

/-- `models.JobPosition`. -/
structure JobPosition where
  organizationId : String
  status : String
  title : String
  description : String
  city : String
  country : String
  start_date : Int
  end_date : Int
  presence_type : String
  languages : List JobLangEntry
  level_of_experience : String
  offer_description : String
  number_of_volunteers : Int
  type_of_presence : String
  education_level : Option String
  education_speciality : Option String
  experience : Option String
  education_department : Option String
  notes : Option String
  qualifications : Option String
  responsibilities : Option String
  skills : List Skill
  critical_requirements : List CriticalRequirement
deriving DecidableEq

/-- Python truthiness of an optional string (`if job.education_level:`):
false for `None` and for the empty string. -/
def optStrTruthy : Option String → Bool
  | none => false
  | some s => s ≠ ""

/-! ## External collaborators

The sentence-transformer embedder, the cosine-similarity kernel applied to
its vectors, the geodesic-distance library and the wall clock are external
to the pipeline.  They are bundled into one oracle, carrying exactly the
contracts the pipeline depends on: cosine similarities lie in `[-1, 1]`
and geodesic distances are non-negative. -/
structure Externals where
  /-- Cosine similarity of the embeddings of two texts
  (`cosine_similarity([encode_single(a)], [encode_single(b)])`). -/
  simPair : String → String → ℚ
  /-- Cosine similarity of the mean embeddings of two text lists
  (`cosine_similarity([mean(encode(as))], [mean(encode(bs))])`). -/
  simMean : List String → List String → ℚ
  /-- `geopy.distance.geodesic(p, q).kilometers`. -/
  geoDist : ℚ × ℚ → ℚ × ℚ → ℚ
  /-- `datetime.now()` in days. -/
  now : Int
  simPair_bounds : ∀ a b, -1 ≤ simPair a b ∧ simPair a b ≤ 1
  simMean_bounds : ∀ a b, -1 ≤ simMean a b ∧ simMean a b ≤ 1
  geoDist_nonneg : ∀ p q, 0 ≤ geoDist p q

/-! ## DateProcessor and LocationProcessor -/

/-- `DateProcessor.compute_duration_years`: `(end - start).days / 365.25`,
with dates at day granularity. -/
def compute_duration_years (start_date end_date : Int) : ℚ :=
  ((end_date - start_date : Int) : ℚ) / (1461 / 4)

/-- `LocationProcessor.CITY_COORDINATES`. -/
def CITY_COORDINATES : List (String × (ℚ × ℚ)) :=
  [("new york", (40.7128, -74.0060)), ("london", (51.5074, -0.1278)),
   ("paris", (48.8566, 2.3522)), ("tokyo", (35.6762, 139.6503)),
   ("san francisco", (37.7749, -122.4194))]

/-- `LocationProcessor.get_coordinates`: city lookup with the `(0.0, 0.0)`
fallback (the country argument is unused by the source). -/
def get_coordinates (city : String) (_country : String) : ℚ × ℚ :=
  (lookupStr (lowerStr city) CITY_COORDINATES).getD (0, 0)

/-- `LocationProcessor.compute_geodesic_distance`.  `get_coordinates` always
returns a (truthy) pair, so the `float('inf')` fallback of the source is
unreachable. -/
def compute_geodesic_distance (ext : Externals)
    (city1 country1 city2 country2 : String) : ℚ :=
  ext.geoDist (get_coordinates city1 country1) (get_coordinates city2 country2)

/-- `LanguageProcessor.get_candidate_language_level`: ordinal of the first
claim whose language matches case-insensitively, else 0. -/
def get_candidate_language_level (candidate : Candidate) (language : String) : Nat :=
  match candidate.languages.find? fun lp => lowerStr lp.language = lowerStr language with
  | some lp => level_to_ordinal lp.level
  | none => 0

/-! ## FeatureVector

The flat `Dict[str, float]` produced by `FeatureExtractor.extract_all_features`,
with the dict keys as fields.  Every key is written unconditionally by the
sub-extractors, so the record is total. -/
structure FeatureVector where
  candidate_highest_degree_level : ℚ
  required_min_degree_level : ℚ
  degree_level_gap : ℚ
  has_required_degree_level : ℚ
  field_match_score : ℚ
  total_years_experience : ℚ
  title_similarity_score : ℚ
  years_experience_in_required_titles : ℚ
  experience_approval : ℚ
  recent_role_match : ℚ
  mandatory_language_coverage_ratio : ℚ
  all_mandatory_languages_ok : ℚ
  preferred_language_coverage_ratio : ℚ
  avg_language_gap : ℚ
  num_required_skills : ℚ
  skill_overlap_count : ℚ
  skill_overlap_ratio : ℚ
  weighted_skill_match_score : ℚ
  mandatory_skill_coverage_ratio : ℚ
  skill_embedding_similarity : ℚ
  location_relevant : ℚ
  geodesic_distance : ℚ
  location_match : ℚ
  num_mandatory_criteria_passed : ℚ
  mandatory_criteria_all_pass : ℚ
  global_text_similarity : ℚ
deriving DecidableEq

/-! ## Education features (FeatureExtractor.extract_education_features) -/

/-- The ordered degree vocabulary `{'high school': 1, 'bachelor': 2,
'master': 3, 'phd': 4}` (Python dicts iterate in insertion order). -/
def degree_levels : List (String × Nat) :=
  [("high school", 1), ("bachelor", 2), ("master", 3), ("phd", 4)]

/-- The inner accumulation `for key, val: if key in level_key:
candidate_highest = max(candidate_highest, val)` for one education entry. -/
def degreeLevelOf (level_of_education : String) : Nat :=
  degree_levels.foldl
    (fun acc kv => if strContains (lowerStr level_of_education) kv.1 then max acc kv.2 else acc) 0

/-- Candidate's highest degree level across education entries. -/
def candidateHighestDegree (education : List Education) : Nat :=
  education.foldl (fun acc edu => max acc (degreeLevelOf edu.level_of_education)) 0

/-- Required degree level: first vocabulary entry contained in
`job.education_level` (the source loop breaks on the first match), 0 when the
requirement is absent/empty. -/
def requiredDegreeLevel (education_level : Option String) : Nat :=
  if optStrTruthy education_level then
    match degree_levels.find? fun kv =>
        strContains (lowerStr (education_level.getD "")) kv.1 with
    | some kv => kv.2
    | none => 0
  else 0

/-- `candidate_fields`: the set of normalized departments over the
candidate's education entries.  (The source also collects the normalized
specialities into `candidate_specialities`, but that set is never used.) -/
def candidateFieldSet (education : List Education) : Finset String :=
  (education.map fun edu => normalize_text edu.department).toFinset

/-- `required_fields`: normalized required department and speciality, each
added only when truthy. -/
def requiredFieldSet (job : JobPosition) : Finset String :=
  ((if optStrTruthy job.education_department
      then [normalize_text (job.education_department.getD "")] else []) ++
   (if optStrTruthy job.education_speciality
      then [normalize_text (job.education_speciality.getD "")] else [])).toFinset

/-- `field_match_score`: Jaccard similarity of `candidate_fields` and
`required_fields` when either is non-empty, else 0. -/
def fieldMatchScore (candidate : Candidate) (job : JobPosition) : ℚ :=
  let cf := candidateFieldSet candidate.education
  let rf := requiredFieldSet job
  if cf ≠ ∅ ∨ rf ≠ ∅ then
    if cf ∪ rf ≠ ∅ then ((cf ∩ rf).card : ℚ) / ((cf ∪ rf).card : ℚ) else 0
  else 0

/-! ## Experience features (FeatureExtractor.extract_experience_features) -/

/-- `exp.end_date if exp.end_date else datetime.now()`. -/
def endOrNow (now : Int) (exp : WorkExperience) : Int := exp.end_date.getD now

/-- `total_years_experience`. -/
def totalYearsExperience (now : Int) (work_experience : List WorkExperience) : ℚ :=
  work_experience.foldl
    (fun acc exp => acc + compute_duration_years exp.start_date (endOrNow now exp)) 0

/-- `f"{job.title} {job.description}"`. -/
def jobTitleText (job : JobPosition) : String := job.title ++ " " ++ job.description

/-- `f"{exp.position} {exp.description}"`. -/
def expText (exp : WorkExperience) : String := exp.position ++ " " ++ exp.description

/-- `np.max` over a non-empty list (the source only applies it to non-empty
similarity vectors). -/
def npMax : List ℚ → ℚ
  | [] => 0
  | x :: xs => xs.foldl max x

/-- `title_similarity_score`: max cosine similarity of the job text against
each experience text, 0 when the candidate has no experience records. -/
def titleSimilarityScore (ext : Externals) (candidate : Candidate) (job : JobPosition) : ℚ :=
  match candidate.work_experience with
  | [] => 0
  | exps => npMax (exps.map fun exp => ext.simPair (jobTitleText job) (expText exp))

/-- `years_experience_in_required_titles`: years restricted to records whose
canonicalized title equals the job's canonicalized title. -/
def yearsInRequiredTitles (now : Int) (candidate : Candidate) (job : JobPosition) : ℚ :=
  (candidate.work_experience.filter fun exp => map_title exp.position = map_title job.title).foldl
    (fun acc exp => acc + compute_duration_years exp.start_date (endOrNow now exp)) 0

/-- `FeatureExtractor._parse_experience_level`. -/
def parse_experience_level (level_str : String) : ℚ :=
  if level_str = "" then 0
  else
    let l := lowerStr level_str
    if strContains l "entry" || strContains l "junior" then 0
    else if strContains l "mid" || strContains l "2-5" then 3
    else if strContains l "senior" || strContains l "5+" then 5
    else 2

/-- `max(candidate.work_experience, key=lambda x: x.start_date)`: the first
record with maximal start date (Python `max` keeps the first maximum). -/
def mostRecentExperience (x : WorkExperience) (rest : List WorkExperience) : WorkExperience :=
  rest.foldl (fun acc e => if e.start_date > acc.start_date then e else acc) x

/-- `recent_role_match`. -/
def recentRoleMatch (candidate : Candidate) (job : JobPosition) : ℚ :=
  match candidate.work_experience with
  | [] => 0
  | x :: rest =>
    if map_title (mostRecentExperience x rest).position = map_title job.title then 1 else 0

/-! ## Language features (FeatureExtractor.extract_language_features) -/

/-- Partition of `job.languages` into `mandatory_languages` (name with its
criticality weight, for weight `> 0`) and `preferred_languages` (names),
skipping non-dict entries. -/
def collectLangs : List JobLangEntry → List (String × ℚ) × List String
  | [] => ([], [])
  | .dictEntry d :: rest =>
    let mp := collectLangs rest
    if d.level_of_cretical > 0 then ((langNameOf d.languages, d.level_of_cretical) :: mp.1, mp.2)
    else (mp.1, langNameOf d.languages :: mp.2)
  | .nonDictEntry :: rest => collectLangs rest

/-- Python `int(q)`: truncation toward zero. -/
def pyInt (q : ℚ) : Int := if 0 ≤ q then ⌊q⌋ else ⌈q⌉

/-- The required ordinal computed by the source for a mandatory requirement:
`level_to_ordinal(str(int(required_level)))`, where `required_level` is the
criticality weight.  The stringified integer is never a key of
`LEVEL_ORDINAL`, so this is 0 for every input. -/
def requiredOrdinalOf (required_level : ℚ) : Nat :=
  level_to_ordinal (toString (pyInt required_level))

/-- `mandatory_satisfied`. -/
def mandatorySatisfied (candidate : Candidate) (mandatory : List (String × ℚ)) : Nat :=
  mandatory.countP fun m =>
    get_candidate_language_level candidate m.1 ≥ requiredOrdinalOf m.2

/-- `language_gaps` (signed, candidate ordinal minus required ordinal). -/
def languageGaps (candidate : Candidate) (mandatory : List (String × ℚ)) : List ℚ :=
  mandatory.map fun m =>
    ((get_candidate_language_level candidate m.1 : ℤ) - (requiredOrdinalOf m.2 : ℤ) : ℤ)

/-- `num_mandatory = len(mandatory_languages) if mandatory_languages else 1`. -/
def numMandatory (mandatory : List (String × ℚ)) : Nat :=
  if mandatory = [] then 1 else mandatory.length

/-- `mandatory_language_coverage_ratio = mandatory_satisfied / num_mandatory
if num_mandatory > 0 else 1.0` (the else branch is dead: `num_mandatory` is
never 0). -/
def mandatoryCoverageRatio (candidate : Candidate) (mandatory : List (String × ℚ)) : ℚ :=
  if numMandatory mandatory > 0 then
    (mandatorySatisfied candidate mandatory : ℚ) / (numMandatory mandatory : ℚ)
  else 1

/-- `all_mandatory_languages_ok = 1.0 if mandatory_satisfied == num_mandatory
else 0.0`. -/
def allMandatoryOk (candidate : Candidate) (mandatory : List (String × ℚ)) : ℚ :=
  if mandatorySatisfied candidate mandatory = numMandatory mandatory then 1 else 0

/-- `preferred_satisfied`. -/
def preferredSatisfied (candidate : Candidate) (preferred : List String) : Nat :=
  preferred.countP fun name => get_candidate_language_level candidate name > 0

/-- `num_preferred = len(preferred_languages) if preferred_languages else 1`. -/
def numPreferred (preferred : List String) : Nat :=
  if preferred = [] then 1 else preferred.length

/-- `preferred_language_coverage_ratio` (else branch again dead). -/
def preferredCoverageRatio (candidate : Candidate) (preferred : List String) : ℚ :=
  if numPreferred preferred > 0 then
    (preferredSatisfied candidate preferred : ℚ) / (numPreferred preferred : ℚ)
  else 0

/-- `avg_language_gap = np.mean(language_gaps) if language_gaps else 0.0`. -/
def avgLanguageGap (gaps : List ℚ) : ℚ :=
  if gaps ≠ [] then gaps.sum / (gaps.length : ℚ) else 0

/-- The language-feature fragment, returned as the four values
`(mandatory_language_coverage_ratio, all_mandatory_languages_ok,
preferred_language_coverage_ratio, avg_language_gap)`. -/
def languageFeatures (candidate : Candidate) (job : JobPosition) : ℚ × ℚ × ℚ × ℚ :=
  let mp := collectLangs job.languages
  (mandatoryCoverageRatio candidate mp.1, allMandatoryOk candidate mp.1,
   preferredCoverageRatio candidate mp.2, avgLanguageGap (languageGaps candidate mp.1))

/-! ## Skills features (FeatureExtractor.extract_skills_features) -/

/-- `{self.taxonomy.map_skill(skill.skill_name) for skill in skills}`. -/
def skillIdSet (skills : List Skill) : Finset String :=
  (skills.map fun s => map_skill s.skill_name).toFinset

/-- `skill.importance or 1.0`: Python `or` replaces both `None` and the
falsy float `0.0` by `1.0`. -/
def importanceOr1 (s : Skill) : ℚ :=
  match s.importance with
  | none => 1
  | some x => if x = 0 then 1 else x

/-- `sum(skill.importance or 1.0 for skill in job.skills)`. -/
def totalImportance (skills : List Skill) : ℚ := (skills.map importanceOr1).sum

/-- `matched_importance`: the importances of the job skills whose canonical
id is held by the candidate. -/
def matchedImportance (candidate_skill_ids : Finset String) (skills : List Skill) : ℚ :=
  ((skills.filter fun s => map_skill s.skill_name ∈ candidate_skill_ids).map importanceOr1).sum

/-! ## Location, mandatory-criteria and global-text features -/

/-- `extract_location_features`, as the triple
`(location_relevant, geodesic_distance, location_match)`. -/
def locationFeatures (ext : Externals) (candidate : Candidate) (job : JobPosition) :
    ℚ × ℚ × ℚ :=
  if lowerStr job.presence_type = "online" then (0, 0, 1)
  else
    let distance := compute_geodesic_distance ext
      candidate.city candidate.country job.city job.country
    let same_city := lowerStr candidate.city = lowerStr job.city
    let same_country := lowerStr candidate.country = lowerStr job.country
    let lm : ℚ :=
      if same_city ∧ same_country then 1
      else if candidate.ready_to_relocate then 1
      else 0
    (1, distance, lm)

/-- `extract_mandatory_criteria_features`: the loop increments `passed_count`
once per critical requirement (the per-requirement evaluation is a stub), so
`passed_count` is the list length; `total_criteria` is the length too
(`len(...) if job.critical_requirements else 0` is the length in both cases).
Returned as `(num_mandatory_criteria_passed, mandatory_criteria_all_pass)`. -/
def mandatoryCriteriaFeatures (job : JobPosition) : ℚ × ℚ :=
  let passed_count : Nat := job.critical_requirements.length
  let total_criteria : Nat :=
    if job.critical_requirements = [] then 0 else job.critical_requirements.length
  ((passed_count : ℚ), if passed_count = total_criteria then 1 else 0)

/-- `" ".join(texts)` (kernel-reducible replacement for
`String.intercalate`). -/
def strJoinSpace : List String → String
  | [] => ""
  | [x] => x
  | x :: xs => x ++ " " ++ strJoinSpace xs

/-- `" ".join(f"{exp.position} {exp.description}" for exp in work_experience)`. -/
def candidateGlobalText (candidate : Candidate) : String :=
  strJoinSpace (candidate.work_experience.map expText)

/-- `f"{job.title} {job.description} {job.qualifications or ''}
{job.responsibilities or ''}"` (Python `or ''` maps both `None` and `""`
to `""`). -/
def jobGlobalText (job : JobPosition) : String :=
  job.title ++ " " ++ job.description ++ " " ++ (job.qualifications.getD "") ++ " " ++
    (job.responsibilities.getD "")

/-- `extract_global_text_similarity` (both texts must be truthy). -/
def globalTextSimilarity (ext : Externals) (candidate : Candidate) (job : JobPosition) : ℚ :=
  if candidateGlobalText candidate ≠ "" ∧ jobGlobalText job ≠ "" then
    ext.simPair (candidateGlobalText candidate) (jobGlobalText job)
  else 0

/-! ## extract_all_features -/

/-- `FeatureExtractor.extract_all_features`: the union of the sub-extractions
(each writes disjoint keys, so the dict updates commute into one record). -/
def extract_all_features (ext : Externals) (candidate : Candidate) (job : JobPosition) :
    FeatureVector :=
  let ch := candidateHighestDegree candidate.education
  let rl := requiredDegreeLevel job.education_level
  let lang := languageFeatures candidate job
  let candidate_skill_ids := skillIdSet candidate.skills
  let job_skill_ids := skillIdSet job.skills
  let overlap := candidate_skill_ids ∩ job_skill_ids
  let ti := totalImportance job.skills
  let loc := locationFeatures ext candidate job
  let crit := mandatoryCriteriaFeatures job
  { candidate_highest_degree_level := (ch : ℚ)
    required_min_degree_level := (rl : ℚ)
    degree_level_gap := ((ch : ℤ) - (rl : ℤ) : ℤ)
    has_required_degree_level := if ch ≥ rl then 1 else 0
    field_match_score := fieldMatchScore candidate job
    total_years_experience := totalYearsExperience ext.now candidate.work_experience
    title_similarity_score := titleSimilarityScore ext candidate job
    years_experience_in_required_titles := yearsInRequiredTitles ext.now candidate job
    experience_approval :=
      if totalYearsExperience ext.now candidate.work_experience ≥
          parse_experience_level job.level_of_experience then 1 else 0
    recent_role_match := recentRoleMatch candidate job
    mandatory_language_coverage_ratio := lang.1
    all_mandatory_languages_ok := lang.2.1
    preferred_language_coverage_ratio := lang.2.2.1
    avg_language_gap := lang.2.2.2
    num_required_skills := (job_skill_ids.card : ℚ)
    skill_overlap_count := (overlap.card : ℚ)
    skill_overlap_ratio :=
      if job_skill_ids ≠ ∅ then (overlap.card : ℚ) / (job_skill_ids.card : ℚ) else 0
    weighted_skill_match_score :=
      if ti > 0 then matchedImportance candidate_skill_ids job.skills / ti else 0
    mandatory_skill_coverage_ratio :=
      if job_skill_ids ≠ ∅ then (overlap.card : ℚ) / (job_skill_ids.card : ℚ) else 0
    skill_embedding_similarity :=
      if candidate.skills ≠ [] ∧ job.skills ≠ [] then
        ext.simMean (candidate.skills.map Skill.skill_name) (job.skills.map Skill.skill_name)
      else 0
    location_relevant := loc.1
    geodesic_distance := loc.2.1
    location_match := loc.2.2
    num_mandatory_criteria_passed := crit.1
    mandatory_criteria_all_pass := crit.2
    global_text_similarity := globalTextSimilarity ext candidate job }

/-! ## ScoringEngine (scoring.ScoringEngine) -/

/-- The weight set returned by `ScoringEngine._get_weight_config`. -/
structure WeightConfig where
  w_edu : ℚ
  w_exp : ℚ
  w_lang : ℚ
  w_skill : ℚ
deriving DecidableEq

/-- The fixed research-keyword set. -/
def research_keywords : List String := ["research", "scientist", "r&d", "phd", "postdoc"]

/-- `ScoringEngine._get_weight_config`. -/
def get_weight_config (job : JobPosition) : WeightConfig :=
  let text := lowerStr job.title ++ " " ++ lowerStr job.description
  if research_keywords.any (fun kw => strContains text kw) then
    { w_edu := 35/100, w_exp := 25/100, w_lang := 15/100, w_skill := 25/100 }
  else
    { w_edu := 15/100, w_exp := 45/100, w_lang := 15/100, w_skill := 25/100 }

/-- `ScoringEngine.compute_education_score`. -/
def compute_education_score (f : FeatureVector) : ℚ :=
  if f.has_required_degree_level = 0 then 0
  else
    let base : ℚ := 7/10
    let base := if f.field_match_score > 1/2 then base + 2/10 else base
    let base := if f.field_match_score > 8/10 then base + 1/10 else base
    min base 1

/-- `ScoringEngine.compute_experience_score`. -/
def compute_experience_score (f : FeatureVector) (job : JobPosition) : ℚ :=
  let required_years := parse_experience_level job.level_of_experience
  let exp_total_score : ℚ :=
    if required_years > 0 then min (f.total_years_experience / max required_years 1) 1 else 1
  let exp_role_score : ℚ :=
    if required_years > 0 then
      min (f.years_experience_in_required_titles / max required_years 1) 1
    else 1
  let title_similarity_normalized := (f.title_similarity_score + 1) / 2
  let S_exp := 4/10 * exp_total_score + 3/10 * exp_role_score +
    3/10 * title_similarity_normalized
  min (max S_exp 0) 1

/-- `ScoringEngine.compute_language_score`. -/
def compute_language_score (f : FeatureVector) : ℚ :=
  if f.all_mandatory_languages_ok = 0 then 0
  else
    let S_lang := 7/10 * f.mandatory_language_coverage_ratio +
      3/10 * f.preferred_language_coverage_ratio
    min (max S_lang 0) 1

/-- `ScoringEngine.compute_skills_score`. -/
def compute_skills_score (f : FeatureVector) : ℚ :=
  if f.mandatory_skill_coverage_ratio < 1/2 then 0
  else
    let S_skill := 6/10 * f.skill_overlap_ratio + 4/10 * f.weighted_skill_match_score
    min (max S_skill 0) 1

/-- The layer-score dictionary returned by
`ScoringEngine.compute_aggregated_score`. -/
structure LayerScores where
  S_edu : ℚ
  S_exp : ℚ
  S_lang : ℚ
  S_skill : ℚ
  S_base : ℚ
  weights : WeightConfig
deriving DecidableEq

/-- `ScoringEngine.compute_aggregated_score`: extracts the features, computes
the four layer scores and the weighted aggregate. -/
def compute_aggregated_score (ext : Externals) (candidate : Candidate) (job : JobPosition) :
    ℚ × LayerScores :=
  let features := extract_all_features ext candidate job
  let S_edu := compute_education_score features
  let S_exp := compute_experience_score features job
  let S_lang := compute_language_score features
  let S_skill := compute_skills_score features
  let w := get_weight_config job
  let S_base := w.w_edu * S_edu + w.w_exp * S_exp + w.w_lang * S_lang + w.w_skill * S_skill
  (S_base, { S_edu := S_edu, S_exp := S_exp, S_lang := S_lang, S_skill := S_skill,
             S_base := S_base, weights := w })

/-! ## HardFilter (scoring.HardFilter) -/

/-- The decision logic of `HardFilter.should_filter_out` over an
already-extracted feature vector: the three checks in source order, first
failing check wins. -/
def hardFilterDecision (f : FeatureVector) (job : JobPosition) : Bool × String :=
  if f.mandatory_criteria_all_pass = 0 then (true, "Failed mandatory criteria")
  else if f.all_mandatory_languages_ok = 0 then (true, "Mandatory languages not satisfied")
  else if lowerStr job.presence_type ≠ "online" then
    if f.location_match = 0 then
      (true, "Location mismatch and candidate not willing to relocate")
    else (false, "Passed all hard filters")
  else (false, "Passed all hard filters")

/-- `HardFilter.should_filter_out`. -/
def should_filter_out (ext : Externals) (candidate : Candidate) (job : JobPosition) :
    Bool × String :=
  hardFilterDecision (extract_all_features ext candidate job) job

/-! ## Ranker (inference.RecommenderSystem)

`results.sort(key=lambda x: x[1], reverse=True)` is Python's stable sort,
descending by score with ties keeping list order.  It is embedded as the
(unique) stable descending insertion sort by a key. -/

/-- Insert `x` into a descending-sorted list: `x` goes before the first
element whose key does not exceed `x`'s, so earlier-inserted equals stay in
front only if they came later in the insertion order (see `sortDescBy`). -/
def insertDescBy {α β : Type} [LinearOrder β] (key : α → β) (x : α) : List α → List α
  | [] => [x]
  | y :: ys => if key y ≤ key x then x :: y :: ys else y :: insertDescBy key x ys

/-- Stable descending sort by a key: the unique reordering that is sorted
descending by `key` and keeps the original order among equal keys — the
behaviour of CPython's `list.sort(key=..., reverse=True)`. -/
def sortDescBy {α β : Type} [LinearOrder β] (key : α → β) : List α → List α
  | [] => []
  | x :: xs => insertDescBy key x (sortDescBy key xs)

/-- `RecommenderSystem.recommend_candidates_for_job`, with the learned
Scorer abstracted as `score` (for the fixed `job`, the model's similarity is
a function of the candidate) and explanations dropped: hard-filter the pool,
return `[]` when nothing survives, else score, stable-sort descending and
truncate to `top_k`. -/
def recommend_candidates_for_job (ext : Externals) (score : Candidate → ℚ)
    (job : JobPosition) (candidate_pool : List Candidate) (top_k : Nat)
    (apply_hard_filter : Bool) : List (Candidate × ℚ) :=
  let filtered_candidates :=
    if apply_hard_filter then
      candidate_pool.filter fun c => !(should_filter_out ext c job).1
    else candidate_pool
  if filtered_candidates.isEmpty then []
  else
    (sortDescBy Prod.snd (filtered_candidates.map fun c => (c, score c))).take top_k

/-! ## Ranking metrics (metrics.py)

Relevance grades are the integers `0, 1, 2, ...` the source documents; the
logarithmic discounts are real numbers.  `np.argsort(scores)[::-1]` is a
descending reordering by predicted score; it is embedded with the stable
descending sort (tie order among equal predicted scores is implementation
defined in the source and does not change any claim below). -/

/-- The gains sum of `dcg_at_k`: position `i` (0-based) contributes
`(2 ** rel_i - 1) / log2(i + 2)`. -/
noncomputable def dcgGains : List Nat → Nat → ℝ
  | [], _ => 0
  | r :: rest, i => ((2:ℝ) ^ r - 1) / Real.logb 2 (i + 2) + dcgGains rest (i + 1)

/-- `metrics.dcg_at_k`: gains of the first `k` relevances (the empty case
returns 0, which the empty gains sum also gives). -/
noncomputable def dcg_at_k (relevances : List Nat) (k : Nat) : ℝ :=
  dcgGains (relevances.take k) 0

/-- `true_relevances[np.argsort(predicted_scores)[::-1]]`: the relevances
reordered by descending predicted score. -/
def relPredOf (true_relevances : List Nat) (predicted_scores : List ℚ) : List Nat :=
  (sortDescBy Prod.fst (predicted_scores.zip true_relevances)).map Prod.snd

/-- `true_relevances[np.argsort(true_relevances)[::-1]]`: the ideal
(descending) reordering of the relevances. -/
def idealOrderOf (true_relevances : List Nat) : List Nat :=
  sortDescBy id true_relevances

/-- `metrics.ndcg_at_k`: 0 for the empty list, else `dcg / idcg` with a 0
result when `idcg` is 0. -/
noncomputable def ndcg_at_k (true_relevances : List Nat) (predicted_scores : List ℚ)
    (k : Nat) : ℝ :=
  if true_relevances = [] then 0
  else
    let dcg := dcg_at_k (relPredOf true_relevances predicted_scores) k
    let idcg := dcg_at_k (idealOrderOf true_relevances) k
    if idcg = 0 then 0 else dcg / idcg

/-! ## Concrete instances used by the witnesses and counterexamples below -/

attribute [local semireducible] Rat.mul Rat.inv Rat.add Rat.sub Rat.ofScientific

/-- A deterministic external oracle whose similarities are all 0. -/
def extZero : Externals where
  simPair := fun _ _ => 0
  simMean := fun _ _ => 0
  geoDist := fun _ _ => 0
  now := 0
  simPair_bounds := by intro a b; constructor <;> norm_num
  simMean_bounds := by intro a b; constructor <;> norm_num
  geoDist_nonneg := by intro p q; norm_num

/-- A deterministic external oracle whose pairwise text similarity is
`-1/2` — a value cosine similarity can take. -/
def extNeg : Externals where
  simPair := fun _ _ => -(1/2)
  simMean := fun _ _ => 0
  geoDist := fun _ _ => 0
  now := 0
  simPair_bounds := by intro a b; constructor <;> norm_num
  simMean_bounds := by intro a b; constructor <;> norm_num
  geoDist_nonneg := by intro p q; norm_num

/-- A candidate with every collection empty. -/
def baseCandidate : Candidate where
  candidate_id := ""
  first_name := ""
  second_name := ""
  phone_number := ""
  date_of_birth := none
  gender := none
  country := ""
  city := ""
  ready_to_relocate := false
  education := []
  work_experience := []
  languages := []
  skills := []

/-- An online job posting with every collection empty. -/
def baseJob : JobPosition where
  organizationId := ""
  status := ""
  title := ""
  description := ""
  city := ""
  country := ""
  start_date := 0
  end_date := 0
  presence_type := "online"
  languages := []
  level_of_experience := ""
  offer_description := ""
  number_of_volunteers := 0
  type_of_presence := ""
  education_level := none
  education_speciality := none
  experience := none
  education_department := none
  notes := none
  qualifications := none
  responsibilities := none
  skills := []
  critical_requirements := []

/-- A bachelor's degree in Math with speciality Physics. -/
def eduMathPhysics : Education where
  level_of_education := "Bachelor"
  department := "Math"
  speciality := "Physics"
  university := "U"
  country := "X"
  start_date := 0
  end_date := none

/-- Candidate whose education set of {department, speciality} values is
{math, physics}. -/
def candMathPhysics : Candidate := { baseCandidate with education := [eduMathPhysics] }

/-- Job requiring department Math and speciality Physics: the identical
{department, speciality} set {math, physics}. -/
def jobMathPhysics : JobPosition :=
  { baseJob with
      education_department := some "Math"
      education_speciality := some "Physics" }

/-- Candidate claiming English at level B2 (ordinal 4). -/
def candEnglishB2 : Candidate :=
  { baseCandidate with languages := [{ language := "English", level := "B2" }] }

/-- Job with one mandatory language requirement: English with criticality
weight 5 (the C1 row of the ordinal table). -/
def jobEnglishMandatory5 : JobPosition :=
  { baseJob with
      languages := [.dictEntry { languages := .dictVal "English", level_of_cretical := 5 }] }

/-- Candidate holding only the skill Java. -/
def candJavaOnly : Candidate :=
  { baseCandidate with
      skills := [{ skill_id := "x", skill_name := "Java", importance := none }] }

/-- Job requiring Python (importance 1) and Java (importance 1/5): matching
only Java gives unweighted overlap 1/2 but weighted coverage 1/6. -/
def jobPythonJava : JobPosition :=
  { baseJob with
      skills := [{ skill_id := "p", skill_name := "Python", importance := some 1 },
                 { skill_id := "j", skill_name := "Java", importance := some (1/5) }] }

/-- Candidate with one work-experience record (for the similarity-range
counterexample). -/
def candOneJob : Candidate :=
  { baseCandidate with
      work_experience := [{ company_name := "Acme", position := "Engineer",
                            start_date := 0, end_date := some 365, is_present := false,
                            description := "built things", country := "X",
                            type_of_work := "full" }] }

/-- Pool members for the ranking example. -/
def candA : Candidate := { baseCandidate with candidate_id := "A" }

/-- Second pool member. -/
def candB : Candidate := { baseCandidate with candidate_id := "B" }

/-- Third pool member. -/
def candC : Candidate := { baseCandidate with candidate_id := "C" }

/-- The learned Scorer of the ranking example: 0.2, 0.9, 0.5 for A, B, C. -/
def scoreABC (c : Candidate) : ℚ :=
  if c.candidate_id = "A" then 2/10 else if c.candidate_id = "B" then 9/10 else 5/10

/-- An online job with one mandatory language entry, so that no candidate of
the ranking example is hard-filtered (see the C10 theorem: with an empty
language list everyone would be filtered out). -/
def jobRank : JobPosition :=
  { baseJob with
      languages := [.dictEntry { languages := .strVal "English", level_of_cretical := 1 }] }

/-- A feature vector failing both the mandatory-criteria value and the
mandatory-language value (everything else passing), for the filter-order
claim. -/
def featuresBothFail : FeatureVector where
  candidate_highest_degree_level := 0
  required_min_degree_level := 0
  degree_level_gap := 0
  has_required_degree_level := 1
  field_match_score := 0
  total_years_experience := 0
  title_similarity_score := 0
  years_experience_in_required_titles := 0
  experience_approval := 1
  recent_role_match := 0
  mandatory_language_coverage_ratio := 0
  all_mandatory_languages_ok := 0
  preferred_language_coverage_ratio := 0
  avg_language_gap := 0
  num_required_skills := 0
  skill_overlap_count := 0
  skill_overlap_ratio := 0
  weighted_skill_match_score := 0
  mandatory_skill_coverage_ratio := 0
  skill_embedding_similarity := 0
  location_relevant := 0
  geodesic_distance := 0
  location_match := 1
  num_mandatory_criteria_passed := 0
  mandatory_criteria_all_pass := 0
  global_text_similarity := 0

/-- Membership in the unit interval, the range the spec asserts for score
and ratio features. -/
def inUnit (x : ℚ) : Prop := 0 ≤ x ∧ x ≤ 1

/-! ## Lemmas about the stable descending sort -/

theorem mem_insertDescBy {α β : Type} [LinearOrder β] (key : α → β) (x a : α) :
    ∀ l : List α, a ∈ insertDescBy key x l ↔ a = x ∨ a ∈ l := by
  intro l
  induction l with
  | nil => simp [insertDescBy]
  | cons y ys ih =>
    simp only [insertDescBy]
    split
    · simp [List.mem_cons]
    · simp only [List.mem_cons, ih]
      tauto

theorem pairwise_insertDescBy {α β : Type} [LinearOrder β] (key : α → β) (x : α) :
    ∀ l : List α, l.Pairwise (fun a b => key b ≤ key a) →
      (insertDescBy key x l).Pairwise (fun a b => key b ≤ key a) := by
  intro l
  induction l with
  | nil => intro _; simp [insertDescBy]
  | cons y ys ih =>
    intro hp
    rw [List.pairwise_cons] at hp
    simp only [insertDescBy]
    split
    · rename_i hyx
      refine List.pairwise_cons.2 ⟨?_, List.pairwise_cons.2 ⟨hp.1, hp.2⟩⟩
      intro z hz
      rcases List.mem_cons.1 hz with hz | hz
      · exact hz ▸ hyx
      · exact (hp.1 z hz).trans hyx
    · rename_i hyx
      refine List.pairwise_cons.2 ⟨?_, ih hp.2⟩
      intro z hz
      rcases (mem_insertDescBy key x z ys).1 hz with hz | hz
      · exact hz ▸ le_of_not_le hyx
      · exact hp.1 z hz

theorem perm_insertDescBy {α β : Type} [LinearOrder β] (key : α → β) (x : α) :
    ∀ l : List α, List.Perm (insertDescBy key x l) (x :: l) := by
  intro l
  induction l with
  | nil => simp [insertDescBy]
  | cons y ys ih =>
    simp only [insertDescBy]
    split
    · exact List.Perm.refl _
    · exact (ih.cons y).trans (List.Perm.swap x y ys)

/-- `sortDescBy` is a permutation of its input. -/
theorem sortDescBy_perm {α β : Type} [LinearOrder β] (key : α → β) :
    ∀ l : List α, List.Perm (sortDescBy key l) l := by
  intro l
  induction l with
  | nil => simp [sortDescBy]
  | cons x xs ih =>
    exact (perm_insertDescBy key x (sortDescBy key xs)).trans (ih.cons x)

/-- `sortDescBy` sorts descending by the key. -/
theorem sortDescBy_pairwise {α β : Type} [LinearOrder β] (key : α → β) :
    ∀ l : List α, (sortDescBy key l).Pairwise (fun a b => key b ≤ key a) := by
  intro l
  induction l with
  | nil => simp [sortDescBy]
  | cons x xs ih => exact pairwise_insertDescBy key x _ ih

theorem filter_insertDescBy {α β : Type} [LinearOrder β] (key : α → β) (q : β) (x : α) :
    ∀ l : List α,
      (insertDescBy key x l).filter (fun a => key a = q) =
        if key x = q then x :: l.filter (fun a => key a = q)
        else l.filter (fun a => key a = q) := by
  intro l
  induction l with
  | nil =>
    simp only [insertDescBy, List.filter]
    split <;> simp_all
  | cons y ys ih =>
    simp only [insertDescBy]
    split
    · rename_i hyx
      by_cases hx : key x = q <;> simp [List.filter_cons, hx]
    · rename_i hyx
      by_cases hx : key x = q
      · have hy : ¬ key y = q := by
          intro hy
          exact hyx (le_of_eq (hx ▸ hy))
        simp [List.filter_cons, hx, hy, ih]
      · by_cases hy : key y = q <;> simp [List.filter_cons, hx, hy, ih]

/-- Stability of `sortDescBy`: the elements of any fixed key keep their
input order. -/
theorem sortDescBy_filter_key {α β : Type} [LinearOrder β] (key : α → β) (q : β) :
    ∀ l : List α,
      (sortDescBy key l).filter (fun a => key a = q) = l.filter (fun a => key a = q) := by
  intro l
  induction l with
  | nil => simp [sortDescBy]
  | cons x xs ih =>
    simp only [sortDescBy, filter_insertDescBy, ih]
    by_cases hx : key x = q <;> simp [List.filter_cons, hx]

/-! ## Range lemmas for the feature extractor and the scoring engine -/

theorem clamp01_inUnit (x : ℚ) : inUnit (min (max x 0) 1) :=
  ⟨le_min (le_max_right x 0) zero_le_one, min_le_right _ _⟩

theorem zero_inUnit : inUnit 0 := ⟨le_refl 0, zero_le_one⟩

theorem one_inUnit : inUnit 1 := ⟨zero_le_one, le_refl 1⟩

theorem indicator_inUnit (p : Prop) [Decidable p] : inUnit (if p then (1:ℚ) else 0) := by
  split
  · exact one_inUnit
  · exact zero_inUnit

/-- A Jaccard-style quotient of set cardinalities is in `[0, 1]`. -/
theorem card_quotient_inUnit (s t : Finset String) (hsub : s ⊆ t) (hne : t ≠ ∅) :
    inUnit ((s.card : ℚ) / (t.card : ℚ)) := by
  have hpos : (0 : ℚ) < (t.card : ℚ) := by
    exact_mod_cast Finset.card_pos.2 (Finset.nonempty_iff_ne_empty.2 hne)
  constructor
  · exact div_nonneg (by positivity) hpos.le
  · rw [div_le_one hpos]
    exact_mod_cast Finset.card_le_card hsub

theorem fieldMatchScore_inUnit (c : Candidate) (j : JobPosition) :
    inUnit (fieldMatchScore c j) := by
  simp only [fieldMatchScore]
  split
  · split
    · rename_i hu
      exact card_quotient_inUnit _ _
        ((Finset.inter_subset_left).trans Finset.subset_union_left) hu
    · exact zero_inUnit
  · exact zero_inUnit

theorem mandatoryCoverageRatio_inUnit (c : Candidate) (m : List (String × ℚ)) :
    inUnit (mandatoryCoverageRatio c m) := by
  unfold mandatoryCoverageRatio numMandatory mandatorySatisfied
  rcases eq_or_ne m [] with rfl | h
  · simp [zero_inUnit]
  · have hlen : 0 < m.length := List.length_pos.2 h
    have hcount : m.countP _ ≤ m.length := m.countP_le_length
      fun p => get_candidate_language_level c p.1 ≥ requiredOrdinalOf p.2
    rw [if_neg h, if_pos hlen]
    constructor
    · positivity
    · rw [div_le_one (by exact_mod_cast hlen)]
      exact_mod_cast hcount

theorem preferredCoverageRatio_inUnit (c : Candidate) (p : List String) :
    inUnit (preferredCoverageRatio c p) := by
  unfold preferredCoverageRatio numPreferred preferredSatisfied
  rcases eq_or_ne p [] with rfl | h
  · simp [zero_inUnit]
  · have hlen : 0 < p.length := List.length_pos.2 h
    have hcount : p.countP _ ≤ p.length := p.countP_le_length
      fun name => decide (get_candidate_language_level c name > 0)
    rw [if_neg h, if_pos hlen]
    constructor
    · positivity
    · rw [div_le_one (by exact_mod_cast hlen)]
      exact_mod_cast hcount

theorem allMandatoryOk_inUnit (c : Candidate) (m : List (String × ℚ)) :
    inUnit (allMandatoryOk c m) := by
  unfold allMandatoryOk
  exact indicator_inUnit _

theorem importanceOr1_nonneg (s : Skill) (h : ∀ x, s.importance = some x → 0 ≤ x) :
    0 ≤ importanceOr1 s := by
  match hs : s.importance with
  | none => simp [importanceOr1, hs]
  | some x =>
    simp only [importanceOr1, hs]
    split
    · norm_num
    · exact h x hs

theorem importance_sums (ids : Finset String) (skills : List Skill)
    (h : ∀ s ∈ skills, ∀ x, s.importance = some x → 0 ≤ x) :
    0 ≤ matchedImportance ids skills ∧ matchedImportance ids skills ≤ totalImportance skills := by
  induction skills with
  | nil => simp [matchedImportance, totalImportance]
  | cons s rest ih =>
    have hs : 0 ≤ importanceOr1 s :=
      importanceOr1_nonneg s (h s (List.mem_cons_self s rest))
    have hr := ih fun t ht x hx => h t (List.mem_cons_of_mem s ht) x hx
    by_cases hmem : map_skill s.skill_name ∈ ids
    · simp [matchedImportance, totalImportance, List.filter_cons, hmem] at hr ⊢
      constructor
      · linarith [hr.1]
      · linarith [hr.2]
    · simp [matchedImportance, totalImportance, List.filter_cons, hmem] at hr ⊢
      constructor
      · exact hr.1
      · linarith [hr.2]

/-- `foldl max` stays within bounds that hold for the seed and every
element. -/
theorem foldl_max_bounds (lo hi : ℚ) :
    ∀ (l : List ℚ) (a : ℚ), lo ≤ a → a ≤ hi → (∀ x ∈ l, lo ≤ x ∧ x ≤ hi) →
      lo ≤ l.foldl max a ∧ l.foldl max a ≤ hi := by
  intro l
  induction l with
  | nil => intro a h1 h2 _; exact ⟨h1, h2⟩
  | cons x xs ih =>
    intro a h1 h2 hall
    have hx := hall x (List.mem_cons_self x xs)
    refine ih (max a x) (le_max_of_le_left h1) (max_le h2 hx.2) ?_
    intro y hy
    exact hall y (List.mem_cons_of_mem x hy)

theorem titleSimilarityScore_bounds (ext : Externals) (c : Candidate) (j : JobPosition) :
    -1 ≤ titleSimilarityScore ext c j ∧ titleSimilarityScore ext c j ≤ 1 := by
  unfold titleSimilarityScore
  cases hc : c.work_experience with
  | nil => norm_num
  | cons e es =>
    simp only [npMax, List.map_cons]
    have he := ext.simPair_bounds (jobTitleText j) (expText e)
    refine foldl_max_bounds (-1) 1 _ _ he.1 he.2 ?_
    intro x hx
    obtain ⟨w, _, rfl⟩ := List.mem_map.1 hx
    exact ext.simPair_bounds _ _

theorem compute_education_score_inUnit (f : FeatureVector) :
    inUnit (compute_education_score f) := by
  unfold compute_education_score
  split
  · exact zero_inUnit
  · split_ifs <;> constructor <;> norm_num

theorem compute_experience_score_inUnit (f : FeatureVector) (j : JobPosition) :
    inUnit (compute_experience_score f j) := by
  unfold compute_experience_score
  exact clamp01_inUnit _

theorem compute_language_score_inUnit (f : FeatureVector) :
    inUnit (compute_language_score f) := by
  unfold compute_language_score
  split
  · exact zero_inUnit
  · exact clamp01_inUnit _

theorem compute_skills_score_inUnit (f : FeatureVector) :
    inUnit (compute_skills_score f) := by
  unfold compute_skills_score
  split
  · exact zero_inUnit
  · exact clamp01_inUnit _

theorem weighted_aggregate_inUnit (w : WeightConfig) (a b c d : ℚ)
    (hw : (w = { w_edu := 35/100, w_exp := 25/100, w_lang := 15/100, w_skill := 25/100 }) ∨
          (w = { w_edu := 15/100, w_exp := 45/100, w_lang := 15/100, w_skill := 25/100 }))
    (ha : inUnit a) (hb : inUnit b) (hc : inUnit c) (hd : inUnit d) :
    inUnit (w.w_edu * a + w.w_exp * b + w.w_lang * c + w.w_skill * d) := by
  obtain ⟨ha0, ha1⟩ := ha
  obtain ⟨hb0, hb1⟩ := hb
  obtain ⟨hc0, hc1⟩ := hc
  obtain ⟨hd0, hd1⟩ := hd
  rcases hw with rfl | rfl <;> constructor <;> [nlinarith; nlinarith; nlinarith; nlinarith]

theorem get_weight_config_cases (j : JobPosition) :
    get_weight_config j = { w_edu := 35/100, w_exp := 25/100, w_lang := 15/100, w_skill := 25/100 } ∨
    get_weight_config j = { w_edu := 15/100, w_exp := 45/100, w_lang := 15/100, w_skill := 25/100 } := by
  simp only [get_weight_config]
  split
  · exact Or.inl rfl
  · exact Or.inr rfl

theorem recentRoleMatch_inUnit (c : Candidate) (j : JobPosition) :
    inUnit (recentRoleMatch c j) := by
  rcases hE : c.work_experience with _ | ⟨x, rest⟩
  · simp only [recentRoleMatch, hE]
    exact zero_inUnit
  · simp only [recentRoleMatch, hE]
    exact indicator_inUnit _

theorem locationFeatures_flags (ext : Externals) (c : Candidate) (j : JobPosition) :
    inUnit (locationFeatures ext c j).1 ∧ inUnit (locationFeatures ext c j).2.2 := by
  unfold locationFeatures
  split
  · exact ⟨zero_inUnit, one_inUnit⟩
  · refine ⟨one_inUnit, ?_⟩
    dsimp only
    split_ifs
    · exact one_inUnit
    · exact one_inUnit
    · exact zero_inUnit

/-- The stubbed criteria evaluator always reports full passing. -/
theorem mandatoryCriteriaFeatures_pass (j : JobPosition) :
    mandatoryCriteriaFeatures j = ((j.critical_requirements.length : ℚ), 1) := by
  unfold mandatoryCriteriaFeatures
  rcases eq_or_ne j.critical_requirements [] with h | h
  · simp [h]
  · simp [h]

/-! ## The claims -/

/-- C8: the labels A1..C2 map to ordinals 1..6 and unknown labels map to 0,
but the label "Native" maps to 0, not 7: the lookup key is uppercased to
"NATIVE", which misses the table's own entry ("Native", 7) — evaluating the
code at the claim's labels. -/
theorem C8_level_to_ordinal_evaluation :
    level_to_ordinal "A1" = 1 ∧ level_to_ordinal "A2" = 2 ∧ level_to_ordinal "B1" = 3 ∧
    level_to_ordinal "B2" = 4 ∧ level_to_ordinal "C1" = 5 ∧ level_to_ordinal "C2" = 6 ∧
    level_to_ordinal "a1" = 1 ∧ level_to_ordinal "Native" = 0 ∧
    level_to_ordinal "native" = 0 ∧ level_to_ordinal "fluent" = 0 ∧
    ("Native", (7 : Nat)) ∈ LEVEL_ORDINAL := by
  refine ⟨by decide, by decide, by decide, by decide, by decide, by decide, by decide,
    by decide, by decide, by decide, by decide⟩

/-- C10: the mandatory-criteria evaluator is a stub that marks every critical
requirement passed, so `mandatory_criteria_all_pass` is 1 for every pair and
`should_filter_out` never returns the "Failed mandatory criteria" reason. -/
theorem C10_mandatory_criteria_stub (ext : Externals) (c : Candidate) (j : JobPosition) :
    (extract_all_features ext c j).mandatory_criteria_all_pass = 1 ∧
    (should_filter_out ext c j).2 ≠ "Failed mandatory criteria" := by
  have hpass : (extract_all_features ext c j).mandatory_criteria_all_pass = 1 := by
    simp only [extract_all_features, mandatoryCriteriaFeatures_pass]
  refine ⟨hpass, ?_⟩
  unfold should_filter_out hardFilterDecision
  rw [hpass, if_neg (by norm_num : ¬ (1:ℚ) = 0)]
  split_ifs <;> decide

/-- C2: for the job with a mandatory English requirement of criticality 5
and a candidate claiming English at B2, the code reports
`all_mandatory_languages_ok = 1` and `S_lang = 7/10`, not 0 and 0 as the
claim states: the required ordinal is computed as
`level_to_ordinal(str(int(5))) = level_to_ordinal("5") = 0`, which any
candidate level satisfies — evaluating the code at the claim's input. -/
theorem C2_c1_requirement_b2_claimant_evaluation :
    (extract_all_features extZero candEnglishB2 jobEnglishMandatory5).all_mandatory_languages_ok
      = 1 ∧
    requiredOrdinalOf 5 = 0 ∧
    (compute_aggregated_score extZero candEnglishB2 jobEnglishMandatory5).2.S_lang = 7/10 := by
  refine ⟨by decide, by decide, by decide⟩

/-- C1: for a job whose language-requirement list yields no mandatory
entries, the code returns `mandatory_language_coverage_ratio = 0` and
`all_mandatory_languages_ok = 0`, not 1 and 1 as the claim states: the
`num_mandatory` fallback is 1 while `mandatory_satisfied` stays 0. -/
theorem C1_empty_mandatory_set_features (ext : Externals) (c : Candidate) (j : JobPosition)
    (h : (collectLangs j.languages).1 = []) :
    (extract_all_features ext c j).mandatory_language_coverage_ratio = 0 ∧
    (extract_all_features ext c j).all_mandatory_languages_ok = 0 := by
  simp only [extract_all_features, languageFeatures, h]
  constructor
  · simp [mandatoryCoverageRatio, numMandatory, mandatorySatisfied]
  · simp [allMandatoryOk, numMandatory, mandatorySatisfied]

/-- Witness for C1 at a concrete pair: the base job has no language entries
at all. -/
theorem C1_empty_mandatory_set_features_witness :
    (collectLangs baseJob.languages).1 = [] ∧
    (extract_all_features extZero baseCandidate baseJob).mandatory_language_coverage_ratio
      = 0 ∧
    (extract_all_features extZero baseCandidate baseJob).all_mandatory_languages_ok = 0 :=
  ⟨by decide,
   (C1_empty_mandatory_set_features extZero baseCandidate baseJob (by decide)).1,
   (C1_empty_mandatory_set_features extZero baseCandidate baseJob (by decide)).2⟩

/-- C6: with candidate education department Math and speciality Physics and
the job requiring exactly department Math and speciality Physics — identical
{department, speciality} sets, which the claim says give score 1 — the code
returns `field_match_score = 1/2`: the candidate side of the Jaccard
computation holds only the departments (the collected speciality set is
never used), evaluating the code at that input. -/
theorem C6_field_match_departments_only_evaluation :
    (extract_all_features extZero candMathPhysics jobMathPhysics).field_match_score = 1/2 ∧
    candidateFieldSet candMathPhysics.education = {"math"} ∧
    requiredFieldSet jobMathPhysics = {"math", "physics"} ∧
    ((1:ℚ)/2) ≠ 1 := by
  refine ⟨by decide, by decide, by decide, by norm_num⟩

/-- C3: the hard filter evaluates its checks in the fixed order
mandatory-criteria, mandatory-language, location (the last only for
non-online postings), returning the reason of the first failing check; in
particular a feature vector failing both the first and the second check gets
the mandatory-criteria reason.  The final conjunct ties the decision logic
to `should_filter_out` on actual candidate-job pairs. -/
theorem C3_filter_priority_order (f : FeatureVector) (j : JobPosition) :
    (f.mandatory_criteria_all_pass = 0 →
      hardFilterDecision f j = (true, "Failed mandatory criteria")) ∧
    (f.mandatory_criteria_all_pass = 0 ∧ f.all_mandatory_languages_ok = 0 →
      hardFilterDecision f j = (true, "Failed mandatory criteria")) ∧
    (f.mandatory_criteria_all_pass ≠ 0 ∧ f.all_mandatory_languages_ok = 0 →
      hardFilterDecision f j = (true, "Mandatory languages not satisfied")) ∧
    (f.mandatory_criteria_all_pass ≠ 0 ∧ f.all_mandatory_languages_ok ≠ 0 ∧
        lowerStr j.presence_type ≠ "online" ∧ f.location_match = 0 →
      hardFilterDecision f j =
        (true, "Location mismatch and candidate not willing to relocate")) ∧
    (f.mandatory_criteria_all_pass ≠ 0 ∧ f.all_mandatory_languages_ok ≠ 0 ∧
        (lowerStr j.presence_type = "online" ∨ f.location_match ≠ 0) →
      hardFilterDecision f j = (false, "Passed all hard filters")) ∧
    hardFilterDecision featuresBothFail baseJob = (true, "Failed mandatory criteria") ∧
    (∀ (ext : Externals) (c : Candidate),
      should_filter_out ext c j = hardFilterDecision (extract_all_features ext c j) j) := by
  refine ⟨?_, ?_, ?_, ?_, ?_, by decide, fun ext c => rfl⟩
  · intro h
    simp [hardFilterDecision, h]
  · rintro ⟨h1, _⟩
    simp [hardFilterDecision, h1]
  · rintro ⟨h1, h2⟩
    simp [hardFilterDecision, h1, h2]
  · rintro ⟨h1, h2, h3, h4⟩
    simp [hardFilterDecision, h1, h2, h3, h4]
  · rintro ⟨h1, h2, h3⟩
    rcases h3 with h3 | h3
    · simp [hardFilterDecision, h1, h2, h3]
    · simp [hardFilterDecision, h1, h2, h3]

/-- C7 (amended): the skill-score gate compares the unweighted
`skill_overlap_ratio` with 1/2, because the extractor sets
`mandatory_skill_coverage_ratio` to `skill_overlap_ratio` rather than to
the importance-weighted coverage; above the gate the score is
`0.6·overlap + 0.4·weighted`, clamped. -/
theorem C7_skill_gate_uses_overlap (ext : Externals) (c : Candidate) (j : JobPosition) :
    (extract_all_features ext c j).mandatory_skill_coverage_ratio =
      (extract_all_features ext c j).skill_overlap_ratio ∧
    compute_skills_score (extract_all_features ext c j) =
      (if (extract_all_features ext c j).skill_overlap_ratio < 1/2 then 0
       else min (max (6/10 * (extract_all_features ext c j).skill_overlap_ratio +
         4/10 * (extract_all_features ext c j).weighted_skill_match_score) 0) 1) :=
  ⟨rfl, rfl⟩

/-- Counterexample for C7: Java matched out of {Python (weight 1), Java
(weight 1/5)} gives weighted coverage 1/6 < 1/2, yet the code's skill score
is 11/30, not 0, because the unweighted overlap 1/2 passes the gate. -/
theorem C7_weighted_below_half_score_not_zero :
    (extract_all_features extZero candJavaOnly jobPythonJava).weighted_skill_match_score
      = 1/6 ∧
    ((1:ℚ)/6) < 1/2 ∧
    (extract_all_features extZero candJavaOnly jobPythonJava).skill_overlap_ratio = 1/2 ∧
    compute_skills_score (extract_all_features extZero candJavaOnly jobPythonJava)
      = 11/30 ∧
    ((11:ℚ)/30) ≠ 0 := by
  refine ⟨by decide, by norm_num, by decide, by decide, by norm_num⟩

/-- Counterexample for C5: with an embedder whose cosine similarity is -1/2
(a value cosine similarity can take) and a candidate with one experience
record, the returned `title_similarity_score` feature is -1/2, outside
[0, 1]. -/
theorem C5_negative_similarity_counterexample :
    (extract_all_features extNeg candOneJob baseJob).title_similarity_score = -(1/2) ∧
    ¬ (0 ≤ (extract_all_features extNeg candOneJob baseJob).title_similarity_score) := by
  refine ⟨by decide, by decide⟩

/-- C5 (amended): for every pair whose job skill importances are
non-negative, every score and ratio feature other than the three
embedding-similarity features lies in [0, 1]; the embedding-similarity
features lie in [-1, 1]; and the four layer scores and the aggregate
`S_base` lie in [0, 1]. -/
theorem C5_bounds_amended (ext : Externals) (c : Candidate) (j : JobPosition)
    (himp : ∀ s ∈ j.skills, ∀ x, s.importance = some x → 0 ≤ x) :
    inUnit (extract_all_features ext c j).field_match_score ∧
    inUnit (extract_all_features ext c j).has_required_degree_level ∧
    inUnit (extract_all_features ext c j).experience_approval ∧
    inUnit (extract_all_features ext c j).recent_role_match ∧
    inUnit (extract_all_features ext c j).mandatory_language_coverage_ratio ∧
    inUnit (extract_all_features ext c j).all_mandatory_languages_ok ∧
    inUnit (extract_all_features ext c j).preferred_language_coverage_ratio ∧
    inUnit (extract_all_features ext c j).skill_overlap_ratio ∧
    inUnit (extract_all_features ext c j).weighted_skill_match_score ∧
    inUnit (extract_all_features ext c j).mandatory_skill_coverage_ratio ∧
    inUnit (extract_all_features ext c j).location_relevant ∧
    inUnit (extract_all_features ext c j).location_match ∧
    inUnit (extract_all_features ext c j).mandatory_criteria_all_pass ∧
    (-1 ≤ (extract_all_features ext c j).title_similarity_score ∧
      (extract_all_features ext c j).title_similarity_score ≤ 1) ∧
    (-1 ≤ (extract_all_features ext c j).skill_embedding_similarity ∧
      (extract_all_features ext c j).skill_embedding_similarity ≤ 1) ∧
    (-1 ≤ (extract_all_features ext c j).global_text_similarity ∧
      (extract_all_features ext c j).global_text_similarity ≤ 1) ∧
    inUnit (compute_aggregated_score ext c j).2.S_edu ∧
    inUnit (compute_aggregated_score ext c j).2.S_exp ∧
    inUnit (compute_aggregated_score ext c j).2.S_lang ∧
    inUnit (compute_aggregated_score ext c j).2.S_skill ∧
    inUnit (compute_aggregated_score ext c j).1 := by
  have hoverlap : inUnit (if skillIdSet j.skills ≠ ∅ then
      (((skillIdSet c.skills ∩ skillIdSet j.skills).card : ℚ) / ((skillIdSet j.skills).card : ℚ))
      else 0) := by
    split
    · rename_i hne
      exact card_quotient_inUnit _ _ Finset.inter_subset_right hne
    · exact zero_inUnit
  refine ⟨?_, ?_, ?_, ?_, ?_, ?_, ?_, ?_, ?_, ?_, ?_, ?_, ?_, ?_, ?_, ?_, ?_, ?_, ?_, ?_, ?_⟩
  · simp only [extract_all_features]
    exact fieldMatchScore_inUnit c j
  · simp only [extract_all_features]
    exact indicator_inUnit _
  · simp only [extract_all_features]
    exact indicator_inUnit _
  · simp only [extract_all_features]
    exact recentRoleMatch_inUnit c j
  · simp only [extract_all_features, languageFeatures]
    exact mandatoryCoverageRatio_inUnit c _
  · simp only [extract_all_features, languageFeatures]
    exact allMandatoryOk_inUnit c _
  · simp only [extract_all_features, languageFeatures]
    exact preferredCoverageRatio_inUnit c _
  · simp only [extract_all_features]
    exact hoverlap
  · simp only [extract_all_features]
    split
    · rename_i hpos
      obtain ⟨hm0, hmt⟩ := importance_sums (skillIdSet c.skills) j.skills himp
      exact ⟨div_nonneg hm0 (le_of_lt hpos), by rw [div_le_one hpos]; exact hmt⟩
    · exact zero_inUnit
  · simp only [extract_all_features]
    exact hoverlap
  · simp only [extract_all_features]
    exact (locationFeatures_flags ext c j).1
  · simp only [extract_all_features]
    exact (locationFeatures_flags ext c j).2
  · simp only [extract_all_features, mandatoryCriteriaFeatures_pass]
    exact one_inUnit
  · simp only [extract_all_features]
    exact titleSimilarityScore_bounds ext c j
  · simp only [extract_all_features]
    split
    · exact ext.simMean_bounds _ _
    · norm_num
  · simp only [extract_all_features]
    unfold globalTextSimilarity
    split
    · exact ext.simPair_bounds _ _
    · norm_num
  · simp only [compute_aggregated_score]
    exact compute_education_score_inUnit _
  · simp only [compute_aggregated_score]
    exact compute_experience_score_inUnit _ _
  · simp only [compute_aggregated_score]
    exact compute_language_score_inUnit _
  · simp only [compute_aggregated_score]
    exact compute_skills_score_inUnit _
  · simp only [compute_aggregated_score]
    exact weighted_aggregate_inUnit _ _ _ _ _ (get_weight_config_cases j)
      (compute_education_score_inUnit _) (compute_experience_score_inUnit _ _)
      (compute_language_score_inUnit _) (compute_skills_score_inUnit _)

/-- Witness for C5 (amended) at a concrete pair with no job skills (the
importance hypothesis holds vacuously). -/
theorem C5_bounds_amended_witness :
    (∀ s ∈ baseJob.skills, ∀ x, s.importance = some x → 0 ≤ x) ∧
    inUnit (extract_all_features extZero baseCandidate baseJob).field_match_score := by
  have h : ∀ s ∈ baseJob.skills, ∀ x, s.importance = some x → 0 ≤ x := by
    intro s hs
    simp [baseJob] at hs
  exact ⟨h, (C5_bounds_amended extZero baseCandidate baseJob h).1⟩

/-- C4: with the hard filter applied, the recommender returns the surviving
candidates paired with their Scorer output, stable-sorted descending by
score and truncated to `top_k`; an empty surviving pool yields `[]`; the
sort is a permutation preserving the relative order of equal scores; and the
spec's worked example pool [A, B, C] with scores [0.2, 0.9, 0.5] and
`top_k = 2` returns [B, C]. -/
theorem C4_ranking_stable_topk (ext : Externals) (score : Candidate → ℚ) (job : JobPosition)
    (pool : List Candidate) (top_k : Nat) :
    recommend_candidates_for_job ext score job pool top_k true =
      (sortDescBy Prod.snd ((pool.filter fun c => !(should_filter_out ext c job).1).map
        fun c => (c, score c))).take top_k ∧
    List.Pairwise (fun a b => b.2 ≤ a.2)
      (recommend_candidates_for_job ext score job pool top_k true) ∧
    (recommend_candidates_for_job ext score job pool top_k true).length ≤ top_k ∧
    ((pool.filter fun c => !(should_filter_out ext c job).1) = [] →
      recommend_candidates_for_job ext score job pool top_k true = []) ∧
    (∀ l : List (Candidate × ℚ), List.Perm (sortDescBy Prod.snd l) l) ∧
    (∀ (l : List (Candidate × ℚ)) (q : ℚ),
      (sortDescBy Prod.snd l).filter (fun x => x.2 = q) = l.filter fun x => x.2 = q) ∧
    recommend_candidates_for_job extZero scoreABC jobRank [candA, candB, candC] 2 true =
      [(candB, 9/10), (candC, 5/10)] := by
  have hmain : recommend_candidates_for_job ext score job pool top_k true =
      (sortDescBy Prod.snd ((pool.filter fun c => !(should_filter_out ext c job).1).map
        fun c => (c, score c))).take top_k := by
    unfold recommend_candidates_for_job
    by_cases h : (pool.filter fun c => !(should_filter_out ext c job).1) = []
    · simp only [h]
      simp [sortDescBy]
    · simp [h, List.isEmpty_iff]
  refine ⟨hmain, ?_, ?_, ?_, fun l => sortDescBy_perm Prod.snd l,
    fun l q => sortDescBy_filter_key Prod.snd q l, by decide⟩
  · rw [hmain]
    exact (sortDescBy_pairwise Prod.snd _).sublist (List.take_sublist _ _)
  · rw [hmain, List.length_take]
    exact min_le_left _ _
  · intro h
    rw [hmain, h]
    simp [sortDescBy]

/-- Counterexample for C9: the single-element relevance list [0] is ordered
perfectly by the predicted scores [1], yet `ndcg_at_k` returns 0 (its ideal
DCG is 0), not 1. -/
theorem C9_ndcg_zero_relevance_counterexample :
    relPredOf [0] [1] = idealOrderOf [0] ∧
    ndcg_at_k [0] [1] 5 = 0 ∧ (0:ℝ) ≠ 1 := by
  refine ⟨by decide, ?_, by norm_num⟩
  unfold ndcg_at_k
  rw [if_neg (by decide : ¬ ([0] : List Nat) = [])]
  have hideal : idealOrderOf [0] = [0] := by decide
  have hzero : dcg_at_k [0] 5 = 0 := by
    unfold dcg_at_k
    norm_num [dcgGains]
  rw [hideal, hzero]
  simp

theorem dcgGains_nonneg : ∀ (l : List Nat) (i : Nat), 0 ≤ dcgGains l i := by
  intro l
  induction l with
  | nil => intro i; simp [dcgGains]
  | cons r rest ih =>
    intro i
    simp only [dcgGains]
    have h1 : (1:ℝ) ≤ (2:ℝ) ^ r := by
      calc (1:ℝ) = 1 ^ r := (one_pow r).symm
      _ ≤ 2 ^ r := pow_le_pow_left₀ (by norm_num) (by norm_num) r
    have h2 : (0:ℝ) ≤ Real.logb 2 ((i : ℝ) + 2) := by
      refine Real.logb_nonneg (by norm_num) ?_
      have : (0:ℝ) ≤ (i : ℝ) := Nat.cast_nonneg i
      linarith
    have h3 : (0:ℝ) ≤ ((2:ℝ) ^ r - 1) / Real.logb 2 ((i : ℝ) + 2) :=
      div_nonneg (by linarith) h2
    have h4 := ih (i + 1)
    linarith

theorem dcgGains_cons_pos (h : Nat) (t : List Nat) (hh : 1 ≤ h) :
    0 < dcgGains (h :: t) 0 := by
  have hrest : 0 ≤ dcgGains t 1 := dcgGains_nonneg t 1
  have hpow : (2:ℝ) ≤ (2:ℝ) ^ h := by
    calc (2:ℝ) = 2 ^ 1 := (pow_one 2).symm
    _ ≤ 2 ^ h := pow_le_pow_right₀ (by norm_num) hh
  simp only [dcgGains, Nat.cast_zero, zero_add]
  rw [Real.logb_self_eq_one (by norm_num)]
  rw [div_one]
  linarith

/-- C9 (amended): for a non-empty relevance list holding at least one
positive grade, evaluated at `k ≥ 1`, whose predicted scores order it
identically to the ideal descending order, `ndcg_at_k` returns 1 (the
all-zero case returns 0 instead, see the counterexample). -/
theorem C9_ndcg_perfect_order_amended (rel : List Nat) (pred : List ℚ) (k : Nat)
    (hne : rel ≠ [])
    (hord : relPredOf rel pred = idealOrderOf rel)
    (hk : 1 ≤ k)
    (hpos : ∃ r ∈ rel, 0 < r) :
    ndcg_at_k rel pred k = 1 := by
  unfold ndcg_at_k
  rw [if_neg hne, hord]
  have hidcg : 0 < dcg_at_k (idealOrderOf rel) k := by
    obtain ⟨r, hr, hrpos⟩ := hpos
    have hmem : r ∈ idealOrderOf rel := ((sortDescBy_perm id rel).mem_iff).2 hr
    cases hideal : idealOrderOf rel with
    | nil =>
      rw [hideal] at hmem
      exact absurd hmem (List.not_mem_nil r)
    | cons h t =>
      have hsorted := sortDescBy_pairwise (id : Nat → Nat) rel
      rw [show sortDescBy id rel = idealOrderOf rel from rfl, hideal] at hsorted
      rw [hideal] at hmem
      have hhr : r ≤ h := by
        rcases List.mem_cons.1 hmem with rfl | hmt
        · exact le_refl r
        · exact (List.pairwise_cons.1 hsorted).1 r hmt
      have hh1 : 1 ≤ h := le_trans hrpos hhr
      obtain ⟨k', rfl⟩ : ∃ k', k = k' + 1 := ⟨k - 1, (Nat.succ_pred_eq_of_pos hk).symm⟩
      unfold dcg_at_k
      rw [List.take_succ_cons]
      exact dcgGains_cons_pos h (t.take k') hh1
  simp only [if_neg hidcg.ne']
  exact div_self hidcg.ne'

/-- Witness for C9 (amended) at the concrete list [2, 1] with predicted
scores [0.9, 0.1] and the default k = 5. -/
theorem C9_ndcg_perfect_order_amended_witness :
    ([2, 1] : List Nat) ≠ [] ∧
    relPredOf [2, 1] [9/10, 1/10] = idealOrderOf [2, 1] ∧
    (1 ≤ 5) ∧ (∃ r ∈ ([2, 1] : List Nat), 0 < r) ∧
    ndcg_at_k [2, 1] [9/10, 1/10] 5 = 1 :=
  ⟨by decide, by decide, by norm_num, by decide,
   C9_ndcg_perfect_order_amended [2, 1] [9/10, 1/10] 5 (by decide) (by decide)
     (by norm_num) (by decide)⟩

end Recsys
